import Mathlib

/-!
Verification development for the IdeaSpark rate-limiting and device-identity
subsystem.

The definitions below are a shallow embedding of the TypeScript sources:

* the serverless handler with its identity classifier, cookie issuance and
  fixed-window rate limiter (source file api handler, given as part_001);
* the client device-identity resolver (src/deviceId.ts);
* the client local usage guard (source file given as part_000).

JavaScript numbers that the code only ever uses as integers (store counters,
TTL seconds, millisecond timestamps) are embedded as Int; the value NaN that
Number can produce from malformed data is embedded as the none case of
Option Int, matching every Number.isFinite guard in the sources.  String
operations (trim, toLowerCase, the two validation regexes) are embedded over
the underlying character lists; trim and toLowerCase are modelled on the
ASCII range, which is the only range the accepted identifier shapes contain.
-/

/-! ## Character and string utilities shared by the sources -/

/-- ASCII whitespace recognised by the JavaScript trim used here. -/
def isWs (c : Char) : Bool :=
  c = ' ' || c = '\t' || c = '\n' || c = '\r' || c = '\x0b' || c = '\x0c'

/-- Case-insensitive hex digit, the character class of both validation
regexes (character class 0-9a-f with the i flag). -/
def isHexCI (c : Char) : Bool :=
  ('0' ≤ c && c ≤ '9') || ('a' ≤ c && c ≤ 'f') || ('A' ≤ c && c ≤ 'F')

/-- ASCII lowercasing of one character, the fragment of toLowerCase relevant
to the accepted identifier shapes. -/
def lowerChar (c : Char) : Char :=
  if 'A' ≤ c && c ≤ 'Z' then Char.ofNat (c.toNat + 32) else c

/-- Embedding of String.prototype.toLowerCase on the ASCII range. -/
def jsToLower (s : String) : String :=
  String.mk (s.data.map lowerChar)

/-- Drop whitespace from both ends of a character list. -/
def trimChars (l : List Char) : List Char :=
  ((l.dropWhile isWs).reverse.dropWhile isWs).reverse

/-- Embedding of String.prototype.trim. -/
def jsTrim (s : String) : String :=
  String.mk (trimChars s.data)

/-- Match a character list against a template: true marks a position that
must hold a dash, false a position that must hold a hex digit, and the
lengths must agree (the regexes are anchored at both ends). -/
def matchesPat : List Char → List Bool → Bool
  | [], [] => true
  | c :: cs, dash :: ps =>
    (if dash then c = '-' else isHexCI c) && matchesPat cs ps
  | _, _ => false

/-- The 8-4-4-4-12 dash template of the UUID regex. -/
def uuidPat : List Bool :=
  List.replicate 8 false ++ [true] ++ List.replicate 4 false ++ [true] ++
  List.replicate 4 false ++ [true] ++ List.replicate 4 false ++ [true] ++
  List.replicate 12 false

/-- Embedding of UUID_REGEX.test (and of the identical regex in
deviceId.ts). -/
def uuidTest (s : String) : Bool :=
  matchesPat s.data uuidPat

/-- Embedding of HEX_64_REGEX.test: exactly 64 case-insensitive hex
digits. -/
def hex64Test (s : String) : Bool :=
  s.data.length = 64 && s.data.all isHexCI

/-- deviceId.ts isValidUuid, the same shape test as UUID_REGEX. -/
def isValidUuid (s : String) : Bool :=
  uuidTest s

/-- Math.ceil (a / b) for integer a and positive integer b, as produced by
the JavaScript expressions Math.ceil(x / 60) and Math.ceil(x / 60000). -/
def ceilDivI (a b : Int) : Int :=
  (a + b - 1) / b

/-! ## Identity classifier and cookie issuance (api handler) -/

/-- The rate context built by the classifier: key, limit and window TTL. -/
structure RateContext where
  key : String
  limit : Nat
  ttlSeconds : Nat
deriving DecidableEq, Repr

/-- JavaScript truthiness of a possibly-absent string: undefined and the
empty string are falsy. -/
def optTruthy : Option String → Bool
  | none => false
  | some s => s ≠ ""

/-- normalizeDeviceId: a non-string (embedded as none) is rejected; a string
is trimmed, then accepted and lowercased when it matches the 64-hex or UUID
shape. -/
def normalizeDeviceId (value : Option String) : Option String :=
  match value with
  | none => none
  | some s =>
    let trimmed := jsTrim s
    if hex64Test trimmed then some (jsToLower trimmed)
    else if uuidTest trimmed then some (jsToLower trimmed)
    else none

/-- createCookie: the Set-Cookie header value issued on first contact. -/
def createCookie (value : String) : String :=
  "ideaspark_id=" ++ value ++
    "; Path=/; Max-Age=31536000; HttpOnly; Secure; SameSite=Lax"

/-- Cookie resolution at the top of the handler.  Input: the parsed
ideaspark_id cookie (none when absent) and the outcome of the uuid
generation attempt (none when the generation expression threw).  Output:
the effective cookieDeviceId variable and the pending Set-Cookie header.
When a truthy cookie exists nothing is generated; otherwise a successful
generation fills both the variable and the pending header. -/
def resolveCookie (cookieVal genUuid : Option String) :
    Option String × Option String :=
  if optTruthy cookieVal then (cookieVal, none)
  else
    match genUuid with
    | some u => (some u, some (createCookie u))
    | none => (cookieVal, none)

/-- The tier decision of the handler: combined when the supplied device id
normalizes, else cookie when the effective cookieDeviceId is truthy, else
ip.  clientIp is the value getClientIp resolved from the headers. -/
def classifyTier (deviceId effCookie : Option String) (clientIp : String) :
    RateContext :=
  match normalizeDeviceId deviceId with
  | some nid => ⟨"rl:combined:" ++ nid, 50, 3600⟩
  | none =>
    if optTruthy effCookie then
      ⟨"rl:cookie:" ++ effCookie.getD "", 30, 3600⟩
    else
      ⟨"rl:ip:" ++ clientIp, 20, 3600⟩

/-! ## Fixed-window rate limiter (api handler) -/

/-- Outcome of the INCR and TTL pipeline round trip against the backing
store.  Entries of a successful reply are the values after Number(): none
embeds NaN from a malformed entry, and a short array behaves like trailing
undefined entries (also none after Number). -/
inductive StoreReply where
  | unreachable
  | httpError (status : Nat)
  | nonArray
  | arrayOf (entries : List (Option Int))
deriving DecidableEq, Repr

/-- runUpstashPipeline: throws when the transport fails, the response is
not ok, or the body is not an array; otherwise yields the mapped entry
results. -/
def runUpstashPipeline : StoreReply → Except String (List (Option Int))
  | .unreachable => .error "fetch failed"
  | .httpError status =>
    .error ("Upstash pipeline failed with status " ++ toString status)
  | .nonArray => .error "Unexpected Upstash response"
  | .arrayOf entries => .ok entries

/-- Result of enforceRateLimit; expireIssued records the argument of the
EXPIRE command when one was sent. -/
structure EnforceResult where
  allowed : Bool
  remainingMinutes : Int
  expireIssued : Option Nat
deriving DecidableEq, Repr

/-- enforceRateLimit: run the INCR and TTL pipeline, reject a non-finite
counter, recover a usable ttlSeconds, re-arm the expiry when the window was
just created or the key has no expiry, and report allowed and
remainingMinutes.  Note that a non-finite observed TTL (none) fails the
ttl < 0 comparison exactly as NaN does in JavaScript. -/
def enforceRateLimit (ctx : RateContext) (reply : StoreReply) :
    Except String EnforceResult :=
  match runUpstashPipeline reply with
  | .error e => .error e
  | .ok entries =>
    match entries.getD 0 none with
    | none => .error "Invalid rate limit counter value"
    | some count =>
      let ttlObs : Option Int := entries.getD 1 none
      let ttlBase : Int :=
        match ttlObs with
        | some t => if t ≥ 0 then t else (ctx.ttlSeconds : Int)
        | none => (ctx.ttlSeconds : Int)
      let fixExpiry : Bool :=
        decide (count = 1) ||
          (match ttlObs with | some t => decide (t < 0) | none => false)
      let ttlEff : Int := if fixExpiry then (ctx.ttlSeconds : Int) else ttlBase
      .ok { allowed := decide (count ≤ (ctx.limit : Int))
            remainingMinutes := max 0 (ceilDivI ttlEff 60)
            expireIssued := if fixExpiry then some ctx.ttlSeconds else none }

/-! ## Request gate (api handler) -/

/-- Outcome of the downstream generation call: failure embeds a rejected
fetch or json parse, reply carries the extracted and trimmed idea text
(none when the optional chain hit undefined). -/
inductive GeminiReply where
  | failure
  | reply (idea : Option String)
deriving DecidableEq, Repr

/-- The JSON body the handler sends with each response. -/
inductive RespBody where
  | idea (text : String)
  | rateLimited (remaining : Int)
  | internalError
  | extractFailed
deriving DecidableEq, Repr

/-- Observable effects of one handler run. -/
structure HandlerResult where
  status : Nat
  body : RespBody
  setCookieSent : Bool
  geminiInvoked : Bool
deriving DecidableEq, Repr

/-- Inputs of one handler run that the rate gate depends on.  Request
fields the gate never reads (category, prompt text) are omitted. -/
structure GateInput where
  deviceId : Option String
  cookieVal : Option String
  genUuid : Option String
  clientIp : String
  store : StoreReply
  gemini : GeminiReply
deriving Repr

/-- The handler: resolve the cookie, classify the tier, attach the pending
Set-Cookie header, enforce the rate limit (an error yields 500 before the
downstream call), deny with 429 when over limit, otherwise invoke the
downstream generation and report its outcome.  The Set-Cookie header is
attached before enforcement, hence on every outcome. -/
def handler (inp : GateInput) : HandlerResult :=
  let rc := resolveCookie inp.cookieVal inp.genUuid
  let ctx := classifyTier inp.deviceId rc.1 inp.clientIp
  let cookieSent := rc.2.isSome
  match enforceRateLimit ctx inp.store with
  | .error _ =>
    { status := 500, body := .internalError
      setCookieSent := cookieSent, geminiInvoked := false }
  | .ok r =>
    if r.allowed then
      match inp.gemini with
      | .failure =>
        { status := 500, body := .internalError
          setCookieSent := cookieSent, geminiInvoked := true }
      | .reply idea =>
        if optTruthy idea then
          { status := 200, body := .idea (idea.getD "")
            setCookieSent := cookieSent, geminiInvoked := true }
        else
          { status := 500, body := .extractFailed
            setCookieSent := cookieSent, geminiInvoked := true }
    else
      { status := 429, body := .rateLimited r.remainingMinutes
        setCookieSent := cookieSent, geminiInvoked := false }

/-- The store failure modes named by the error-handling contract: transport
failure, non-ok status, non-array body, or a non-finite counter entry. -/
def storeFailed : StoreReply → Bool
  | .unreachable => true
  | .httpError _ => true
  | .nonArray => true
  | .arrayOf entries => (entries.getD 0 none).isNone

/-! ## Device identity resolver (src/deviceId.ts) -/

/-- Runtime facts one getDeviceId call observes: whether window.localStorage
is accessible and the whole try block succeeds, the stored value under
ideaspark_device_id, the value crypto.randomUUID would return when that
function exists (none when it does not), and the Date.now and Math.random
ingredients of the fallback template. -/
structure DeviceIdEnv where
  storageOk : Bool
  stored : Option String
  cryptoUUID : Option String
  nowMs : Nat
  randSuffix : String
deriving Repr

/-- The fallback identifier template used when crypto.randomUUID is not
available. -/
def fallbackDeviceId (nowMs : Nat) (randSuffix : String) : String :=
  "device-" ++ toString nowMs ++ "-" ++ randSuffix

/-- getDeviceId: empty string when storage is inaccessible; a truthy stored
value passing the UUID shape test is returned unchanged; otherwise a fresh
identifier (crypto.randomUUID when available, else the fallback template) is
persisted and returned.  The second component records the storage write. -/
def getDeviceId (env : DeviceIdEnv) : String × Option String :=
  if env.storageOk then
    let keepStored : Bool :=
      match env.stored with
      | some e => e ≠ "" && isValidUuid e
      | none => false
    if keepStored then (env.stored.getD "", none)
    else
      let fresh := env.cryptoUUID.getD (fallbackDeviceId env.nowMs env.randSuffix)
      (fresh, some fresh)
  else ("", none)

/-- One hex digit character (lowercase), as Number.prototype.toString with
radix 16 renders a digit below 16. -/
def hexDigitChar (n : Nat) : Char :=
  if n < 10 then Char.ofNat (48 + n) else Char.ofNat (87 + n)

/-- The two hex characters of one byte: toString(16) padded with padStart(2,
zero) is exactly the high and the low nibble for a byte below 256. -/
def hexPair (b : Nat) : List Char :=
  [hexDigitChar (b / 16), hexDigitChar (b % 16)]

/-- The hex rendering of a digest byte array, as the map plus join in
sha256. -/
def bytesToHex (bs : List Nat) : String :=
  String.mk ((bs.map hexPair).flatten)

/-- sha256: empty string when crypto.subtle is unavailable; otherwise the
hex rendering of the digest, and a rejected digest propagates. -/
def sha256Hex (subtle : Bool) (digest : Except Unit (List Nat)) :
    Except Unit String :=
  if subtle then digest.map bytesToHex else .ok ""

/-- getUniqueDeviceId: empty when the base id is empty; otherwise digest
baseId, a pipe and the fingerprint, return the hash when truthy, and fall
back to the bare base id when the hash is empty or the digest rejected.
The fingerprint promise itself never rejects (its failures already degrade
to an empty string inside deviceId.ts), so it enters here as a plain
string. -/
def getUniqueDeviceId (baseId fingerprint : String) (subtle : Bool)
    (digestFn : String → Except Unit (List Nat)) : String :=
  if baseId = "" then ""
  else
    match sha256Hex subtle (digestFn (baseId ++ "|" ++ fingerprint)) with
    | .ok h => if h ≠ "" then h else baseId
    | .error _ => baseId

/-! ## Local usage guard (client rate file, part_000) -/

/-- Insert into an ascending list. -/
def insertAsc (x : Int) : List Int → List Int
  | [] => [x]
  | y :: ys => if x ≤ y then x :: y :: ys else y :: insertAsc x ys

/-- Ascending sort, the effect of the numeric comparator sort in the
source. -/
def sortInt : List Int → List Int
  | [] => []
  | x :: xs => insertAsc x (sortInt xs)

/-- The stored raw value as seen after JSON.parse and Number: none embeds a
missing key, a parse failure or a non-array, and each entry is none when
Number gave a non-finite value. -/
def rawEntries (raw : Option (List (Option Int))) : List (Option Int) :=
  raw.getD []

/-- The finite stored timestamps not older than the trailing hour window. -/
def windowEntries (raw : Option (List (Option Int))) (now : Int) : List Int :=
  ((rawEntries raw).filterMap id).filter (fun t => decide (t ≥ now - 3600000))

/-- How many stored timestamps fall in the trailing window. -/
def windowCount (raw : Option (List (Option Int))) (now : Int) : Nat :=
  (windowEntries raw now).length

/-- loadTimestamps: parse, keep finite entries within the window, sort
ascending. -/
def loadTimestamps (raw : Option (List (Option Int))) (now : Int) :
    List Int :=
  sortInt (windowEntries raw now)

/-- minutesUntilReset: zero under the limit, else the ceiling of the time
until the oldest kept timestamp leaves the window, never negative. -/
def minutesUntilReset (timestamps : List Int) (now : Int) : Int :=
  if timestamps.length < 20 then 0
  else
    let oldest := timestamps.headD 0
    let remainingMs := 3600000 - (now - oldest)
    if remainingMs ≤ 0 then 0 else ceilDivI remainingMs 60000

/-- canGenerateIdea: allowed below the limit of 20, and the reset estimate
only when denied. -/
def canGenerateIdea (raw : Option (List (Option Int))) (now : Int) :
    Bool × Int :=
  let timestamps := loadTimestamps raw now
  let allowed := decide (timestamps.length < 20)
  (allowed, if allowed then 0 else minutesUntilReset timestamps now)

/-! ## Helper lemmas -/

theorem length_insertAsc (x : Int) (l : List Int) :
    (insertAsc x l).length = l.length + 1 := by
  induction l with
  | nil => rfl
  | cons y ys ih =>
    by_cases h : x ≤ y <;> simp [insertAsc, h, ih]

theorem length_sortInt (l : List Int) : (sortInt l).length = l.length := by
  induction l with
  | nil => rfl
  | cons x xs ih => simp [sortInt, length_insertAsc, ih]

theorem dropWhile_append_forall (p : Char → Bool) (l rest : List Char)
    (h : ∀ c ∈ l, p c = true) :
    (l ++ rest).dropWhile p = rest.dropWhile p := by
  induction l with
  | nil => rfl
  | cons c cs ih =>
    have hc : p c = true := h c (by simp)
    simp only [List.cons_append, List.dropWhile_cons, hc, if_true]
    exact ih (fun d hd => h d (by simp [hd]))

theorem dropWhile_eq_self_forall (p : Char → Bool) (l : List Char)
    (h : ∀ c ∈ l, p c = false) :
    l.dropWhile p = l := by
  cases l with
  | nil => rfl
  | cons c cs =>
    have hc : p c = false := h c (by simp)
    simp [List.dropWhile_cons, hc]

theorem trimChars_sandwich (l m r : List Char)
    (hl : ∀ c ∈ l, isWs c = true) (hr : ∀ c ∈ r, isWs c = true)
    (hm : ∀ c ∈ m, isWs c = false) (hne : m ≠ []) :
    trimChars (l ++ m ++ r) = m := by
  unfold trimChars
  have step1 : (l ++ m ++ r).dropWhile isWs = m ++ r := by
    rw [List.append_assoc, dropWhile_append_forall isWs l (m ++ r) hl]
    cases m with
    | nil => exact absurd rfl hne
    | cons c cs =>
      have hc : isWs c = false := hm c (by simp)
      simp [List.dropWhile_cons, hc]
  rw [step1, List.reverse_append,
    dropWhile_append_forall isWs r.reverse m.reverse
      (fun c hc => hr c (List.mem_reverse.mp hc)),
    dropWhile_eq_self_forall isWs m.reverse
      (fun c hc => hm c (List.mem_reverse.mp hc)),
    List.reverse_reverse]

theorem matchesPat_mem (cs : List Char) (ps : List Bool)
    (h : matchesPat cs ps = true) :
    ∀ c ∈ cs, c = '-' ∨ isHexCI c = true := by
  induction cs generalizing ps with
  | nil => intro c hc; simp at hc
  | cons c0 cs0 ih =>
    cases ps with
    | nil => simp [matchesPat] at h
    | cons d ds =>
      simp only [matchesPat, Bool.and_eq_true] at h
      intro c hc
      rcases List.mem_cons.mp hc with rfl | hmem
      · cases d with
        | true => left; exact of_decide_eq_true (by simpa using h.1)
        | false => right; simpa using h.1
      · exact ih ds h.2 c hmem

theorem isHexCI_not_ws (c : Char) (h : isHexCI c = true) : isWs c = false := by
  by_contra hw
  have hw1 : isWs c = true := by
    cases hws : isWs c with
    | false => exact absurd hws hw
    | true => rfl
  simp only [isWs, Bool.or_eq_true, decide_eq_true_eq] at hw1
  rcases hw1 with ((((h1 | h1) | h1) | h1) | h1) | h1 <;>
    subst h1 <;> simp [isHexCI] at h

theorem valid_shape_not_ws (s : String)
    (h : (hex64Test s || uuidTest s) = true) :
    (∀ c ∈ s.data, isWs c = false) ∧ s.data ≠ [] := by
  rcases Bool.or_eq_true_iff.mp h with hx | hu
  · simp only [hex64Test, Bool.and_eq_true, decide_eq_true_eq,
      List.all_eq_true] at hx
    refine ⟨fun c hc => isHexCI_not_ws c (hx.2 c hc), ?_⟩
    intro hnil
    rw [hnil] at hx
    simp at hx
  · have hmem := matchesPat_mem s.data uuidPat hu
    refine ⟨fun c hc => ?_, ?_⟩
    · rcases hmem c hc with rfl | hhex
      · rfl
      · exact isHexCI_not_ws c hhex
    · intro hnil
      unfold uuidTest at hu
      rw [hnil] at hu
      simp [matchesPat, uuidPat] at hu

theorem jsTrim_sandwich (ws1 core ws2 : String)
    (h1 : ws1.data.all isWs = true) (h2 : ws2.data.all isWs = true)
    (hcore : (hex64Test core || uuidTest core) = true) :
    jsTrim (ws1 ++ core ++ ws2) = core := by
  obtain ⟨hnotws, hne⟩ := valid_shape_not_ws core hcore
  have hdata : (ws1 ++ core ++ ws2).data = ws1.data ++ core.data ++ ws2.data := by
    simp
  unfold jsTrim
  rw [hdata, trimChars_sandwich ws1.data core.data ws2.data
    (fun c hc => (List.all_eq_true.mp h1) c hc)
    (fun c hc => (List.all_eq_true.mp h2) c hc) hnotws hne]

theorem hexDigitChar_hex (n : Nat) (h : n < 16) :
    isHexCI (hexDigitChar n) = true := by
  interval_cases n <;> decide

theorem hexPair_hex (b : Nat) (hb : b < 256) :
    ∀ c ∈ hexPair b, isHexCI c = true := by
  intro c hc
  rcases List.mem_cons.mp hc with rfl | hc2
  · exact hexDigitChar_hex _ (by omega)
  · rcases List.mem_singleton.mp hc2 with rfl
    exact hexDigitChar_hex _ (by omega)

theorem bytesToHex_data (bs : List Nat) :
    (bytesToHex bs).data = (bs.map hexPair).flatten := rfl

theorem bytesToHex_spec (bs : List Nat) (hb : ∀ b ∈ bs, b < 256) :
    (bytesToHex bs).data.length = 2 * bs.length ∧
    ∀ c ∈ (bytesToHex bs).data, isHexCI c = true := by
  rw [bytesToHex_data]
  induction bs with
  | nil => simp
  | cons b rest ih =>
    have hbb : b < 256 := hb b (by simp)
    have hrest := ih (fun x hx => hb x (by simp [hx]))
    constructor
    · simp only [List.map_cons, List.flatten_cons, List.length_append,
        List.length_cons, hexPair]
      simp at hrest ⊢
      omega
    · intro c hc
      simp only [List.map_cons, List.flatten_cons, List.mem_append] at hc
      rcases hc with hc | hc
      · exact hexPair_hex b hbb c hc
      · exact hrest.2 c hc

theorem bytesToHex_hex64 (bs : List Nat) (h32 : bs.length = 32)
    (hb : ∀ b ∈ bs, b < 256) : hex64Test (bytesToHex bs) = true := by
  obtain ⟨hlen, hall⟩ := bytesToHex_spec bs hb
  simp only [hex64Test, Bool.and_eq_true, decide_eq_true_eq, List.all_eq_true]
  exact ⟨by omega, hall⟩

theorem enforce_error_of_storeFailed (ctx : RateContext) (r : StoreReply)
    (h : storeFailed r = true) :
    ∃ e, enforceRateLimit ctx r = .error e := by
  cases r with
  | unreachable => exact ⟨_, rfl⟩
  | httpError status => exact ⟨_, rfl⟩
  | nonArray => exact ⟨_, rfl⟩
  | arrayOf entries =>
    simp only [storeFailed, Option.isNone_iff_eq_none, List.getD] at h
    rw [List.get?_eq_getElem?] at h
    refine ⟨"Invalid rate limit counter value", ?_⟩
    simp [enforceRateLimit, runUpstashPipeline, List.getD, h]

theorem handler_effects (inp : GateInput) :
    (handler inp).setCookieSent =
      (resolveCookie inp.cookieVal inp.genUuid).2.isSome ∧
    ((handler inp).status = 200 ∨ (handler inp).status = 429 ∨
      (handler inp).status = 500) := by
  unfold handler
  cases henf : enforceRateLimit
      (classifyTier inp.deviceId (resolveCookie inp.cookieVal inp.genUuid).1
        inp.clientIp) inp.store with
  | error e => simp [henf]
  | ok r =>
    cases hr : r.allowed with
    | false => simp [henf, hr]
    | true =>
      cases hg : inp.gemini with
      | failure => simp [henf, hr, hg]
      | reply idea =>
        cases ht : optTruthy idea <;> simp [henf, hr, hg, ht]

/-- Claim C5: for every rate context and every post-increment count, the
limiter returns allowed exactly when the count is at most the context limit;
in particular allowed still holds at the limit itself and fails at limit
plus one, so the flip happens exactly on that transition. -/
theorem c5_allowed_threshold (ctx : RateContext) (count : Int)
    (ttlObs : Option Int) :
    ((enforceRateLimit ctx (.arrayOf [some count, ttlObs])).toOption.map
        EnforceResult.allowed = some (decide (count ≤ (ctx.limit : Int)))) ∧
    ((enforceRateLimit ctx (.arrayOf [some (ctx.limit : Int), ttlObs])).toOption.map
        EnforceResult.allowed = some true) ∧
    ((enforceRateLimit ctx
        (.arrayOf [some ((ctx.limit : Int) + 1), ttlObs])).toOption.map
        EnforceResult.allowed = some false) := by
  refine ⟨?_, ?_, ?_⟩ <;>
    simp [enforceRateLimit, runUpstashPipeline, List.getD, Except.toOption]

/-- Claim C6: with a finite observed TTL, the limiter issues EXPIRE with the
context TTL exactly when the post-increment count equals one or the observed
TTL is negative; remainingMinutes is then the ceiling of the context TTL
over 60, and in every other case the ceiling of the observed TTL over 60. -/
theorem c6_expiry_and_remaining (ctx : RateContext) (count t : Int) :
    enforceRateLimit ctx (.arrayOf [some count, some t]) =
      .ok { allowed := decide (count ≤ (ctx.limit : Int))
            remainingMinutes :=
              if count = 1 ∨ t < 0 then ceilDivI (ctx.ttlSeconds : Int) 60
              else ceilDivI t 60
            expireIssued :=
              if count = 1 ∨ t < 0 then some ctx.ttlSeconds else none } := by
  by_cases hb : count = 1 ∨ t < 0
  · have hfix : (decide (count = 1) || decide (t < 0)) = true := by
      rcases hb with hb | hb <;> simp [hb]
    simp [enforceRateLimit, runUpstashPipeline, List.getD, hfix, hb,
      EnforceResult.mk.injEq, ceilDivI]
    omega
  · have hb2 := hb
    push_neg at hb2
    have hfix : (decide (count = 1) || decide (t < 0)) = false := by
      simp [hb2.1, hb2.2]
    simp [enforceRateLimit, runUpstashPipeline, List.getD, hfix, hb,
      EnforceResult.mk.injEq, ceilDivI, hb2.2]
    omega

/-- Claim C4: when the backing store is unreachable, responds with a non-ok
status, or returns a malformed reply (non-array body or a non-finite
counter), the gate responds 500 with the internal error body, never invokes
the downstream generation call, and the outcome is distinct from a 429
deny. -/
theorem c4_store_failure_fails_closed (inp : GateInput)
    (h : storeFailed inp.store = true) :
    (handler inp).status = 500 ∧ (handler inp).body = .internalError ∧
    (handler inp).geminiInvoked = false ∧ (handler inp).status ≠ 429 := by
  obtain ⟨e, he⟩ := enforce_error_of_storeFailed
    (classifyTier inp.deviceId (resolveCookie inp.cookieVal inp.genUuid).1
      inp.clientIp) inp.store h
  unfold handler
  simp [he]

/-- A concrete run against an unreachable store, with a healthy downstream
service standing by. -/
def storeDownInput : GateInput :=
  { deviceId := none, cookieVal := none, genUuid := none
    clientIp := "198.51.100.7", store := .unreachable
    gemini := .reply (some "idea") }

theorem c4_store_failure_witness :
    storeFailed storeDownInput.store = true ∧
    ((handler storeDownInput).status = 500 ∧
      (handler storeDownInput).body = .internalError ∧
      (handler storeDownInput).geminiInvoked = false ∧
      (handler storeDownInput).status ≠ 429) :=
  ⟨rfl, c4_store_failure_fails_closed storeDownInput rfl⟩

/-- Claim C8: whenever the gate holds a pending cookie-issuance header, the
outgoing response reports it as attached, on every outcome; each outcome is
one of the statuses 200, 429 and 500. -/
theorem c8_cookie_attached (inp : GateInput)
    (h : (resolveCookie inp.cookieVal inp.genUuid).2.isSome = true) :
    (handler inp).setCookieSent = true ∧
    ((handler inp).status = 200 ∨ (handler inp).status = 429 ∨
      (handler inp).status = 500) := by
  obtain ⟨h1, h2⟩ := handler_effects inp
  exact ⟨by rw [h1, h], h2⟩

/-- A first-contact run: no cookie arrived, uuid generation succeeded, and
the store denies the request, exercising the deny outcome. -/
def firstContactInput : GateInput :=
  { deviceId := none, cookieVal := none
    genUuid := some "123e4567-e89b-12d3-a456-426614174000"
    clientIp := "198.51.100.7", store := .arrayOf [some 31, some 1200]
    gemini := .reply (some "idea") }

theorem c8_cookie_attached_witness :
    (resolveCookie firstContactInput.cookieVal
      firstContactInput.genUuid).2.isSome = true ∧
    ((handler firstContactInput).setCookieSent = true ∧
      ((handler firstContactInput).status = 200 ∨
        (handler firstContactInput).status = 429 ∨
        (handler firstContactInput).status = 500)) :=
  ⟨rfl, c8_cookie_attached firstContactInput rfl⟩

/-- Claim C1 fails on the code: on a request with no valid device id and no
existing cookie, a successfully generated first-contact uuid is assigned to
the cookie variable before classification, so the classifier picks the
cookie tier with limit 30 keyed by the fresh value, not the ip tier. -/
theorem c1_counterexample :
    classifyTier (some "not-a-uuid")
        (resolveCookie none (some "123e4567-e89b-12d3-a456-426614174000")).1
        "203.0.113.5" =
      ⟨"rl:cookie:123e4567-e89b-12d3-a456-426614174000", 30, 3600⟩ ∧
    classifyTier (some "not-a-uuid")
        (resolveCookie none (some "123e4567-e89b-12d3-a456-426614174000")).1
        "203.0.113.5" ≠ ⟨"rl:ip:203.0.113.5", 20, 3600⟩ := by
  refine ⟨by decide, by decide⟩

/-- Claim C1 amended: with no valid device id, the ip tier with limit 20 and
key rl:ip:clientIp is selected only when no existing cookie is present and
the fresh cookie id generation also failed; an existing non-empty cookie, or
a freshly generated non-empty cookie id, selects the cookie tier with limit
30 keyed by that value. -/
theorem c1_amended_tier_selection (dev cv g : Option String) (ip : String)
    (hdev : normalizeDeviceId dev = none) :
    (cv = none → g = none →
      classifyTier dev (resolveCookie cv g).1 ip =
        ⟨"rl:ip:" ++ ip, 20, 3600⟩) ∧
    (∀ c, cv = some c → c ≠ "" →
      classifyTier dev (resolveCookie cv g).1 ip =
        ⟨"rl:cookie:" ++ c, 30, 3600⟩) ∧
    (∀ u, optTruthy cv = false → g = some u → u ≠ "" →
      classifyTier dev (resolveCookie cv g).1 ip =
        ⟨"rl:cookie:" ++ u, 30, 3600⟩) := by
  refine ⟨?_, ?_, ?_⟩
  · rintro rfl rfl
    simp [resolveCookie, classifyTier, hdev, optTruthy]
  · rintro c rfl hc
    simp [resolveCookie, classifyTier, hdev, optTruthy, hc]
  · rintro u hcv rfl hu
    simp only [resolveCookie, hcv, Bool.false_eq_true, if_false]
    simp [classifyTier, hdev, optTruthy, hu]

theorem c1_amended_witness :
    normalizeDeviceId (some "not-a-uuid") = none ∧
    ((none = (none : Option String) → some "9f8e7d6c" = (none : Option String) →
      classifyTier (some "not-a-uuid")
        (resolveCookie none (some "9f8e7d6c")).1 "203.0.113.5" =
          ⟨"rl:ip:" ++ "203.0.113.5", 20, 3600⟩) ∧
    (∀ c, (none : Option String) = some c → c ≠ "" →
      classifyTier (some "not-a-uuid")
        (resolveCookie none (some "9f8e7d6c")).1 "203.0.113.5" =
          ⟨"rl:cookie:" ++ c, 30, 3600⟩) ∧
    (∀ u, optTruthy none = false → some "9f8e7d6c" = some u → u ≠ "" →
      classifyTier (some "not-a-uuid")
        (resolveCookie none (some "9f8e7d6c")).1 "203.0.113.5" =
          ⟨"rl:cookie:" ++ u, 30, 3600⟩)) :=
  ⟨by decide,
    c1_amended_tier_selection (some "not-a-uuid") none (some "9f8e7d6c")
      "203.0.113.5" (by decide)⟩

/-- Claim C2: a supplied device id whose trimmed form matches the 64-hex or
UUID shape always selects the combined tier with limit 50, keyed by the
trimmed lowercased identifier, regardless of the cookie state. -/
theorem c2_combined_tier (s : String) (effCookie : Option String)
    (ip : String)
    (h : (hex64Test (jsTrim s) || uuidTest (jsTrim s)) = true) :
    classifyTier (some s) effCookie ip =
      ⟨"rl:combined:" ++ jsToLower (jsTrim s), 50, 3600⟩ := by
  rcases Bool.or_eq_true_iff.mp h with hx | hu
  · simp [classifyTier, normalizeDeviceId, hx]
  · by_cases hx : hex64Test (jsTrim s) <;>
      simp [classifyTier, normalizeDeviceId, hx, hu]

theorem c2_combined_tier_witness :
    (hex64Test (jsTrim "123E4567-E89B-12D3-A456-426614174000") ||
      uuidTest (jsTrim "123E4567-E89B-12D3-A456-426614174000")) = true ∧
    classifyTier (some "123E4567-E89B-12D3-A456-426614174000")
        (some "existing-session") "198.51.100.7" =
      ⟨"rl:combined:" ++
        jsToLower (jsTrim "123E4567-E89B-12D3-A456-426614174000"),
        50, 3600⟩ :=
  ⟨by decide,
    c2_combined_tier "123E4567-E89B-12D3-A456-426614174000"
      (some "existing-session") "198.51.100.7" (by decide)⟩

/-- A resolver run with accessible storage, nothing stored, and
crypto.randomUUID unavailable. -/
def noCryptoEnv : DeviceIdEnv :=
  { storageOk := true, stored := none, cryptoUUID := none
    nowMs := 1700000000000, randSuffix := "k3f9qzab" }

/-- Claim C3 fails on the code: when crypto.randomUUID is unavailable the
regenerated identifier follows the device-timestamp-random template, which
is persisted and returned although it does not match the strict UUID
shape. -/
theorem c3_counterexample :
    getDeviceId noCryptoEnv =
      ("device-1700000000000-k3f9qzab",
        some "device-1700000000000-k3f9qzab") ∧
    "device-1700000000000-k3f9qzab" ≠ "" ∧
    isValidUuid "device-1700000000000-k3f9qzab" = false := by
  refine ⟨by decide, by decide, by decide⟩

/-- Claim C3 amended: when crypto.randomUUID is available and yields a
UUID-shaped value, every identifier returned with accessible storage matches
the strict UUID shape, and a stored value that is absent or shape-invalid is
replaced by the freshly generated identifier, persisted and returned; only
the fallback path taken without crypto.randomUUID can produce a non-UUID
identifier. -/
theorem c3_amended_uuid_invariant (env : DeviceIdEnv) (u : String)
    (hs : env.storageOk = true) (hc : env.cryptoUUID = some u)
    (hu : isValidUuid u = true) :
    isValidUuid (getDeviceId env).1 = true ∧
    ((match env.stored with
        | some e => (e ≠ "" && isValidUuid e) = false
        | none => True) →
      getDeviceId env = (u, some u)) := by
  cases hst : env.stored with
  | none => simp [getDeviceId, hs, hst, hc, hu]
  | some e =>
    by_cases hne : e = ""
    · subst hne
      refine ⟨?_, fun _ => ?_⟩ <;> simp [getDeviceId, hs, hst, hc, hu]
    · by_cases hev : isValidUuid e = true
      · refine ⟨?_, ?_⟩
        · simp [getDeviceId, hs, hst, hne, hev]
        · intro hfalse
          simp only [ne_eq, Bool.and_eq_false_iff, decide_eq_false_iff_not,
            not_not] at hfalse
          rcases hfalse with hfalse | hfalse
          · exact absurd hfalse hne
          · rw [hfalse] at hev
            exact absurd hev (by simp)
      · have hevf : isValidUuid e = false := by
          cases hx : isValidUuid e with
          | false => rfl
          | true => exact absurd hx hev
        refine ⟨?_, fun _ => ?_⟩ <;>
          simp [getDeviceId, hs, hst, hne, hevf, hc, hu]

/-- A resolver run holding a malformed stored identifier while
crypto.randomUUID works. -/
def staleStoredEnv : DeviceIdEnv :=
  { storageOk := true, stored := some "not-a-uuid"
    cryptoUUID := some "123e4567-e89b-12d3-a456-426614174000"
    nowMs := 0, randSuffix := "x0" }

theorem c3_amended_witness :
    staleStoredEnv.storageOk = true ∧
    staleStoredEnv.cryptoUUID =
      some "123e4567-e89b-12d3-a456-426614174000" ∧
    isValidUuid "123e4567-e89b-12d3-a456-426614174000" = true ∧
    (isValidUuid (getDeviceId staleStoredEnv).1 = true ∧
      ((match staleStoredEnv.stored with
          | some e => (e ≠ "" && isValidUuid e) = false
          | none => True) →
        getDeviceId staleStoredEnv =
          ("123e4567-e89b-12d3-a456-426614174000",
            some "123e4567-e89b-12d3-a456-426614174000"))) :=
  ⟨rfl, rfl, by decide,
    c3_amended_uuid_invariant staleStoredEnv
      "123e4567-e89b-12d3-a456-426614174000" rfl rfl (by decide)⟩

/-- Claim C7: the local guard allows exactly when fewer than 20 stored
timestamps fall in the trailing 3600000 ms window; when it denies, the
remaining minutes are the ceiling over 60000 ms of the time left until the
oldest kept timestamp leaves the window, clamped at zero so an expired
window yields zero rather than a negative value. -/
theorem c7_local_guard (raw : Option (List (Option Int))) (now : Int) :
    ((canGenerateIdea raw now).1 = decide (windowCount raw now < 20)) ∧
    ((canGenerateIdea raw now).2 =
      if windowCount raw now < 20 then 0
      else
        max 0 (ceilDivI
          (3600000 - (now - (loadTimestamps raw now).headD 0)) 60000)) ∧
    (loadTimestamps raw now).length = windowCount raw now := by
  have hlen : (loadTimestamps raw now).length = windowCount raw now := by
    unfold loadTimestamps windowCount
    exact length_sortInt _
  refine ⟨by simp [canGenerateIdea, hlen], ?_, hlen⟩
  unfold canGenerateIdea minutesUntilReset
  by_cases h : windowCount raw now < 20
  · simp [hlen, h]
  · simp [hlen, h]
    unfold ceilDivI
    omega

/-- Claim C9: with a non-empty base identifier the resolver always returns a
non-empty value; when the digest machinery is available and succeeds on a
32-byte digest the result is its 64-hex rendering, and an unavailable or
rejected digest falls back to the bare base identifier instead of
propagating a rejection. -/
theorem c9_unique_id_total (baseId fingerprint : String) (subtle : Bool)
    (digestFn : String → Except Unit (List Nat)) (hb : baseId ≠ "") :
    (getUniqueDeviceId baseId fingerprint subtle digestFn ≠ "") ∧
    (∀ bs, subtle = true →
      digestFn (baseId ++ "|" ++ fingerprint) = .ok bs → bs.length = 32 →
      (∀ b ∈ bs, b < 256) →
      getUniqueDeviceId baseId fingerprint subtle digestFn = bytesToHex bs ∧
      hex64Test (bytesToHex bs) = true) ∧
    (subtle = false →
      getUniqueDeviceId baseId fingerprint subtle digestFn = baseId) ∧
    (digestFn (baseId ++ "|" ++ fingerprint) = .error () →
      getUniqueDeviceId baseId fingerprint subtle digestFn = baseId) := by
  refine ⟨?_, ?_, ?_, ?_⟩
  · cases hs : subtle with
    | false => simp [getUniqueDeviceId, sha256Hex, hb]
    | true =>
      cases hd : digestFn (baseId ++ "|" ++ fingerprint) with
      | error e => simp [getUniqueDeviceId, sha256Hex, Except.map, hb, hd]
      | ok bs =>
        by_cases hbs : bytesToHex bs = "" <;>
          simp [getUniqueDeviceId, sha256Hex, Except.map, hb, hd, hbs]
  · rintro bs rfl hd h32 hlt
    have hne : bytesToHex bs ≠ "" := by
      intro hemp
      have hlen := (bytesToHex_spec bs hlt).1
      rw [hemp, h32] at hlen
      exact absurd hlen (by decide)
    refine ⟨?_, bytesToHex_hex64 bs h32 hlt⟩
    simp [getUniqueDeviceId, sha256Hex, Except.map, hb, hd, hne]
  · intro hs
    simp [getUniqueDeviceId, sha256Hex, hs, hb]
  · intro hd
    cases hs : subtle with
    | false => simp [getUniqueDeviceId, sha256Hex, hb]
    | true => simp [getUniqueDeviceId, sha256Hex, Except.map, hb, hd]

theorem c9_unique_id_witness :
    ("b7c9" : String) ≠ "" ∧
    getUniqueDeviceId "b7c9" "fp" true
      (fun _ => .ok (List.replicate 32 0)) ≠ "" ∧
    (getUniqueDeviceId "b7c9" "fp" true
        (fun _ => .ok (List.replicate 32 0)) =
      bytesToHex (List.replicate 32 0) ∧
      hex64Test (bytesToHex (List.replicate 32 0)) = true) :=
  ⟨by decide,
    (c9_unique_id_total "b7c9" "fp" true
      (fun _ => .ok (List.replicate 32 0)) (by decide)).1,
    (c9_unique_id_total "b7c9" "fp" true
      (fun _ => .ok (List.replicate 32 0)) (by decide)).2.1
      (List.replicate 32 0) rfl rfl (by decide) (by decide)⟩

/-- Claim C10: a supplied device identifier consisting of a valid UUID or
64-hex core surrounded by whitespace is trimmed before shape validation,
accepted into the combined tier, and normalized to the trimmed lowercased
core. -/
theorem c10_trim_before_validation (ws1 core ws2 : String)
    (h1 : ws1.data.all isWs = true) (h2 : ws2.data.all isWs = true)
    (hcore : (hex64Test core || uuidTest core) = true) :
    normalizeDeviceId (some (ws1 ++ core ++ ws2)) = some (jsToLower core) ∧
    classifyTier (some (ws1 ++ core ++ ws2)) none "198.51.100.7" =
      ⟨"rl:combined:" ++ jsToLower core, 50, 3600⟩ := by
  have htrim := jsTrim_sandwich ws1 core ws2 h1 h2 hcore
  have hnorm : normalizeDeviceId (some (ws1 ++ core ++ ws2)) =
      some (jsToLower core) := by
    rcases Bool.or_eq_true_iff.mp hcore with hx | hu
    · simp [normalizeDeviceId, htrim, hx]
    · by_cases hx : hex64Test core <;>
        simp [normalizeDeviceId, htrim, hx, hu]
  exact ⟨hnorm, by simp [classifyTier, hnorm]⟩

theorem c10_trim_witness :
    ((" " : String).data.all isWs = true) ∧
    (("\t" : String).data.all isWs = true) ∧
    ((hex64Test "123E4567-E89B-12D3-A456-426614174000" ||
      uuidTest "123E4567-E89B-12D3-A456-426614174000") = true) ∧
    (normalizeDeviceId
        (some (" " ++ "123E4567-E89B-12D3-A456-426614174000" ++ "\t")) =
      some (jsToLower "123E4567-E89B-12D3-A456-426614174000") ∧
    classifyTier
        (some (" " ++ "123E4567-E89B-12D3-A456-426614174000" ++ "\t"))
        none "198.51.100.7" =
      ⟨"rl:combined:" ++ jsToLower "123E4567-E89B-12D3-A456-426614174000",
        50, 3600⟩) :=
  ⟨by decide, by decide, by decide,
    c10_trim_before_validation " " "123E4567-E89B-12D3-A456-426614174000"
      "\t" (by decide) (by decide) (by decide)⟩
